import Mathlib

/-!
# SCTK `rfilter1/include/calloc2.c`: `calloc_safe`

A shallow embedding of

```c
 void *calloc_safe(size_t nobj, size_t size, Char *calling_proc)
 {Char *proc = (Char *)"calloc_safe";
  void *x;
  if (db_level > 3) printf("%sdoing %s\n",(char *)pdb,(char *)proc);
  x = calloc(nobj,size);
  if (x == NULL) fatal_error(calling_proc,(Char *)"MEM ALLOC",-1);
  if (memory_trace) printf("%s CALLOC %p\n",pdb, (void *)x);
  return x;
 }
```

The process state is passed explicitly.  Everything the function can be
observed to do (writes to standard output, the call of the C library
allocator, the call of `fatal_error`) is appended to a chronological event
list, so that order and multiplicity can be stated.
-/

namespace SCTK

/-! ## Data model -/

/-- A C pointer value, as an address. -/
abbrev Ptr := Nat

/-- The null pointer. -/
def NULL : Ptr := 0

/-- Largest value of `size_t` (64-bit target). -/
def SIZE_MAX : Nat := 2 ^ 64 - 1

/-- The allocator's memory: the live blocks, each a base address with the
bytes stored there. -/
structure Heap where
  blocks : List (Ptr × List Nat)
deriving DecidableEq, Repr

/-- The bytes of the block whose base address is `p`, when there is one. -/
def Heap.block (h : Heap) (p : Ptr) : Option (List Nat) :=
  h.blocks.lookup p

/-- What one run can be observed to do, in the order it does it. -/
inductive Event where
  /-- A write of `out` to standard output by `printf`. -/
  | printf (out : String)
  /-- A call `calloc(nobj,size)`. -/
  | calloc (nobj size : Nat)
  /-- A call `fatal_error(reporting_procedure,msg,error_level)`. -/
  | fatal_error (reporting_procedure msg : String) (error_level : Int)
deriving DecidableEq, Repr

/-- The process state `calloc_safe` runs in.  `db_level`, `memory_trace` and
`pdb` are the globals the function reads (declared in `stdcenvf.h`);
`memory_trace` is a C truth value, any non-zero value being true. -/
structure World where
  db_level : Int
  memory_trace : Int
  pdb : String
  heap : Heap
  events : List Event
deriving DecidableEq, Repr

/-- The C library as far as `calloc_safe` uses it: the allocator, as a
function of the heap and the two arguments giving the returned pointer and the
new heap, and the implementation-defined rendering of the `%p` conversion. -/
structure Libc where
  calloc : Heap → Nat → Nat → Ptr × Heap
  fmt_p : Ptr → String

/-- How a computation ends: it returns `v` in state `w`, or the process was
terminated in state `w` and nothing is returned. -/
inductive Result (α : Type) where
  | ok (v : α) (w : World)
  | aborted (w : World)
deriving DecidableEq, Repr

/-- The state a computation ends in. -/
def Result.world {α : Type} : Result α → World
  | Result.ok _ w => w
  | Result.aborted w => w

/-- The value handed back to the caller, when control returns to it. -/
def Result.returned {α : Type} : Result α → Option α
  | Result.ok v _ => some v
  | Result.aborted _ => none

/-- A C procedure: a state transformer that may terminate the process. -/
def Proc (α : Type) : Type := World → Result α

/-- Sequencing of C statements: what follows a terminated process does not
run. -/
def Proc.bind {α β : Type} (m : Proc α) (f : α → Proc β) : Proc β :=
  fun w =>
    match m w with
    | Result.ok v w1 => f v w1
    | Result.aborted w1 => Result.aborted w1

instance : Monad Proc where
  pure := fun v w => Result.ok v w
  bind := Proc.bind

/-! ## The collaborators -/

/-- Read of the global `db_level`. -/
def read_db_level : Proc Int :=
  fun w => Result.ok w.db_level w

/-- Read of the global `memory_trace`. -/
def read_memory_trace : Proc Int :=
  fun w => Result.ok w.memory_trace w

/-- Read of the global `pdb`. -/
def read_pdb : Proc String :=
  fun w => Result.ok w.pdb w

/-- The call `printf(...)` whose formatted text is `out`: the text goes to
standard output, nothing else changes. -/
def printf (out : String) : Proc Unit :=
  fun w => Result.ok () { w with events := w.events ++ [Event.printf out] }

/-- The call `calloc(nobj,size)` of the C library `libc`. -/
def calloc (libc : Libc) (nobj size : Nat) : Proc Ptr :=
  fun w =>
    let r := libc.calloc w.heap nobj size
    Result.ok r.1 { w with heap := r.2, events := w.events ++ [Event.calloc nobj size] }

/-- Modelled from the spec: `fatal_error` is defined in another file of the
repository (only its call is in `calloc2.c`).  The spec gives it the contract
`fatal(callerLabel, category, code) -> never`: "Must not return; typically
logs and terminates the process".  The call is recorded and the process
ends. -/
def fatal_error (reporting_procedure msg : String) (error_level : Int) : Proc Unit :=
  fun w =>
    Result.aborted
      { w with events := w.events ++ [Event.fatal_error reporting_procedure msg error_level] }

/-! ## The function -/

/-- The text of `printf("%sdoing %s\n",(char *)pdb,(char *)proc)`. -/
def fmt_doing (pdb proc : String) : String :=
  pdb ++ "doing " ++ proc ++ "\n"

/-- The text of `printf("%s CALLOC %p\n",pdb,(void *)x)`. -/
def fmt_CALLOC (libc : Libc) (pdb : String) (x : Ptr) : String :=
  pdb ++ " CALLOC " ++ libc.fmt_p x ++ "\n"

/-- The function `calloc_safe` of `calloc2.c`, statement by statement. -/
def calloc_safe (libc : Libc) (nobj size : Nat) (calling_proc : String) : Proc Ptr := do
  let proc := "calloc_safe"
  if (← read_db_level) > 3 then printf (fmt_doing (← read_pdb) proc)
  let x ← calloc libc nobj size
  if x = NULL then fatal_error calling_proc "MEM ALLOC" (-1)
  if (← read_memory_trace) ≠ 0 then printf (fmt_CALLOC libc (← read_pdb) x)
  return x

/-! ## Observations on a run -/

/-- The events a computation started in `w` added to the event list. -/
def emitted {α : Type} (w : World) (r : Result α) : List Event :=
  r.world.events.drop w.events.length

/-- The texts written to standard output, in order. -/
def printed : List Event → List String
  | [] => []
  | Event.printf out :: es => out :: printed es
  | _ :: es => printed es

/-- The argument triples of the calls of `fatal_error`, in order. -/
def fatal_calls : List Event → List (String × String × Int)
  | [] => []
  | Event.fatal_error rp msg lvl :: es => (rp, msg, lvl) :: fatal_calls es
  | _ :: es => fatal_calls es

/-- The argument pairs of the calls of `calloc`, in order. -/
def calloc_calls : List Event → List (Nat × Nat)
  | [] => []
  | Event.calloc nobj size :: es => (nobj, size) :: calloc_calls es
  | _ :: es => calloc_calls es

/-- Whether an event is a call of the allocator. -/
def is_calloc : Event → Bool
  | Event.calloc _ _ => true
  | _ => false

/-- The events that precede the first call of the allocator. -/
def before_alloc (es : List Event) : List Event :=
  es.takeWhile (fun e => !is_calloc e)

/-- The events that follow the first call of the allocator. -/
def after_alloc (es : List Event) : List Event :=
  (es.dropWhile (fun e => !is_calloc e)).drop 1

/-- What the caller and the environment get from a run started in `w`, the
standard output left aside: the returned pointer (if control returns), the
calls of `fatal_error`, and the heap. -/
def outcome (w : World) (r : Result Ptr) : Option Ptr × List (String × String × Int) × Heap :=
  (r.returned, fatal_calls (emitted w r), r.world.heap)

/-- The contract of the C allocator: a non-null result is the base of a block
of `nobj * size` bytes, all zero. -/
def calloc_contract (libc : Libc) : Prop :=
  ∀ (h : Heap) (nobj size : Nat), (libc.calloc h nobj size).1 ≠ NULL →
    (libc.calloc h nobj size).2.block (libc.calloc h nobj size).1
      = some (List.replicate (nobj * size) 0)

/-! ## Allocators to run the function against -/

/-- An allocator over an arena of `cap` bytes starting at address 4096: blocks
are laid out one after the other, a request that does not fit (in particular
one whose byte count exceeds `SIZE_MAX`) fails, a zero-size request gets a
unique non-null address. -/
def arena_calloc (cap : Nat) (h : Heap) (nobj size : Nat) : Ptr × Heap :=
  let used := (h.blocks.map (fun b => b.2.length + 1)).sum
  if nobj * size > SIZE_MAX ∨ used + nobj * size + 1 > cap then (NULL, h)
  else (4096 + used, { blocks := (4096 + used, List.replicate (nobj * size) 0) :: h.blocks })

/-- The allocator that always signals failure (exhausted memory). -/
def failing_calloc (h : Heap) (_nobj _size : Nat) : Ptr × Heap :=
  (NULL, h)

/-- An allocator whose zero-size convention is the null pointer (one of the two
the C standard allows), and which serves other requests from the arena. -/
def zero_null_calloc (cap : Nat) (h : Heap) (nobj size : Nat) : Ptr × Heap :=
  if nobj * size = 0 then (NULL, h) else arena_calloc cap h nobj size

/-- A rendering of `%p`: the address in hexadecimal after `0x`. -/
def hex_p (x : Ptr) : String :=
  "0x" ++ String.mk (Nat.toDigits 16 x)

/-- A C library with 64 KiB of memory. -/
def arena_libc : Libc :=
  { calloc := arena_calloc 65536, fmt_p := hex_p }

/-- A C library whose memory is exhausted. -/
def exhausted_libc : Libc :=
  { calloc := failing_calloc, fmt_p := hex_p }

/-- A C library that answers zero-size requests with the null pointer. -/
def zero_null_libc : Libc :=
  { calloc := zero_null_calloc 65536, fmt_p := hex_p }

/-- A start state: the given diagnostic context, an empty heap, no events. -/
def start (db_level memory_trace : Int) (pdb : String) : World :=
  { db_level := db_level, memory_trace := memory_trace, pdb := pdb,
    heap := { blocks := [] }, events := [] }

/-! ## Lemmas on the run -/

/-- The events of the "doing" trace of a run started in `w`. -/
def doing_events (w : World) : List Event :=
  if w.db_level > 3 then [Event.printf (fmt_doing w.pdb "calloc_safe")] else []

/-- The events of a run started in `w` after `calloc` gave `x`. -/
def after_events (libc : Libc) (calling_proc : String) (w : World) (x : Ptr) : List Event :=
  if x = NULL then [Event.fatal_error calling_proc "MEM ALLOC" (-1)]
  else if w.memory_trace ≠ 0 then [Event.printf (fmt_CALLOC libc w.pdb x)] else []

/-- The run of `calloc_safe` in closed form: the allocator result decides
between termination and return, and determines the final state. -/
theorem calloc_safe_run (libc : Libc) (nobj size : Nat) (calling_proc : String) (w : World) :
    calloc_safe libc nobj size calling_proc w =
      (if (libc.calloc w.heap nobj size).1 = NULL then Result.aborted else
        Result.ok (libc.calloc w.heap nobj size).1)
        { w with
          heap := (libc.calloc w.heap nobj size).2
          events := w.events ++ (doing_events w ++
            Event.calloc nobj size ::
              after_events libc calling_proc w (libc.calloc w.heap nobj size).1) } := by
  by_cases hd : w.db_level > 3 <;> by_cases hx : (libc.calloc w.heap nobj size).1 = NULL <;>
    by_cases hm : w.memory_trace = 0 <;>
    simp [calloc_safe, bind, Proc.bind, read_db_level, read_pdb, read_memory_trace, printf,
      calloc, fatal_error, pure, doing_events, after_events, hd, hx, hm]

/-- The events one call adds: the "doing" trace, the call of `calloc`, then
what follows the allocation. -/
theorem calloc_safe_emitted (libc : Libc) (nobj size : Nat) (calling_proc : String) (w : World) :
    emitted w (calloc_safe libc nobj size calling_proc w) =
      doing_events w ++ Event.calloc nobj size ::
        after_events libc calling_proc w (libc.calloc w.heap nobj size).1 := by
  rw [calloc_safe_run]
  by_cases hx : (libc.calloc w.heap nobj size).1 = NULL <;>
    simp [emitted, Result.world, hx]

/-- Control returns to the caller exactly when `calloc` gave a non-null
pointer, and then with that pointer. -/
theorem calloc_safe_returned (libc : Libc) (nobj size : Nat) (calling_proc : String) (w : World) :
    (calloc_safe libc nobj size calling_proc w).returned =
      if (libc.calloc w.heap nobj size).1 = NULL then none
      else some (libc.calloc w.heap nobj size).1 := by
  rw [calloc_safe_run]
  by_cases hx : (libc.calloc w.heap nobj size).1 = NULL <;> simp [Result.returned, hx]

/-- The state one call ends in. -/
theorem calloc_safe_world (libc : Libc) (nobj size : Nat) (calling_proc : String) (w : World) :
    (calloc_safe libc nobj size calling_proc w).world =
      { w with
        heap := (libc.calloc w.heap nobj size).2
        events := w.events ++ (doing_events w ++
          Event.calloc nobj size ::
            after_events libc calling_proc w (libc.calloc w.heap nobj size).1) } := by
  rw [calloc_safe_run]
  by_cases hx : (libc.calloc w.heap nobj size).1 = NULL <;> simp [Result.world, hx]

/-- The "doing" text for the component name `calloc_safe`. -/
theorem fmt_doing_calloc_safe (pdb : String) :
    fmt_doing pdb "calloc_safe" = pdb ++ "doing calloc_safe" ++ "\n" := by
  simp [fmt_doing, String.append_assoc]

/-- A "doing" text is never a CALLOC text: after `pdb` the one continues with
`d`, the other with a blank. -/
theorem doing_text_ne_CALLOC_text (pdb a : String) :
    pdb ++ "doing calloc_safe" ++ "\n" ≠ pdb ++ " CALLOC " ++ a ++ "\n" := by
  intro h
  have h2 := congrArg String.data h
  simp only [String.data_append, List.append_assoc, List.append_cancel_left_eq] at h2
  have h3 := congrArg List.head? h2
  simp at h3

/-- The arena allocator meets the allocator contract. -/
theorem arena_calloc_contract (cap : Nat) (fmt : Ptr → String) :
    calloc_contract { calloc := arena_calloc cap, fmt_p := fmt } := by
  intro h nobj size hx
  simp only [arena_calloc] at hx ⊢
  split_ifs at hx ⊢ with hc
  · exact absurd rfl hx
  · simp [Heap.block]

/-- Before the call of `calloc` a run has only its "doing" trace. -/
theorem before_alloc_run (w : World) (nobj size : Nat) (rest : List Event) :
    before_alloc (doing_events w ++ Event.calloc nobj size :: rest) = doing_events w := by
  by_cases hd : w.db_level > 3 <;>
    simp [doing_events, before_alloc, is_calloc, List.takeWhile, hd]

/-- What follows the call of `calloc` in a run. -/
theorem after_alloc_run (w : World) (nobj size : Nat) (rest : List Event) :
    after_alloc (doing_events w ++ Event.calloc nobj size :: rest) = rest := by
  by_cases hd : w.db_level > 3 <;>
    simp [doing_events, after_alloc, is_calloc, List.dropWhile, hd]

/-! ## Allocation failure is fatal -/

/-- C1: when `calloc` gives the null pointer, `calloc_safe` calls `fatal_error`
exactly once, with exactly `(calling_proc, "MEM ALLOC", -1)`, and hands nothing
back to its caller; when `calloc` gives a non-null pointer, `fatal_error` is
not called at all. -/
theorem calloc_safe_fatal_iff_alloc_null (libc : Libc) (nobj size : Nat)
    (calling_proc : String) (w : World) :
    ((libc.calloc w.heap nobj size).1 = NULL →
      (calloc_safe libc nobj size calling_proc w).returned = none ∧
      fatal_calls (emitted w (calloc_safe libc nobj size calling_proc w))
        = [(calling_proc, "MEM ALLOC", -1)]) ∧
    ((libc.calloc w.heap nobj size).1 ≠ NULL →
      fatal_calls (emitted w (calloc_safe libc nobj size calling_proc w)) = []) := by
  rw [calloc_safe_emitted, calloc_safe_returned]
  constructor
  · intro hx
    by_cases hd : w.db_level > 3 <;> simp [hx, doing_events, after_events, fatal_calls, hd]
  · intro hx
    by_cases hd : w.db_level > 3 <;> by_cases hm : w.memory_trace = 0 <;>
      simp [hx, doing_events, after_events, fatal_calls, hd, hm]

/-- The scenario `calloc_safe(1, 1<<40, "hugeAlloc")` against exhausted memory:
nothing is returned and `fatal_error("hugeAlloc","MEM ALLOC",-1)` is the one
call of the handler. -/
theorem calloc_safe_hugeAlloc_fatal :
    (calloc_safe exhausted_libc 1 (2 ^ 40) "hugeAlloc" (start 0 0 "")).returned = none ∧
    fatal_calls (emitted (start 0 0 "")
        (calloc_safe exhausted_libc 1 (2 ^ 40) "hugeAlloc" (start 0 0 "")))
      = [("hugeAlloc", "MEM ALLOC", -1)] :=
  (calloc_safe_fatal_iff_alloc_null exhausted_libc 1 (2 ^ 40) "hugeAlloc" (start 0 0 "")).1 rfl

/-! ## The returned block -/

/-- C2: against an allocator that meets `calloc_contract`, whenever
`calloc_safe` returns `x` in state `w'`, `x` is non-null and is the base of a
block of exactly `nobj * size` bytes, every byte zero; and whenever the
allocator succeeds, `calloc_safe` does return and `fatal_error` is not
called. -/
theorem calloc_safe_returns_zeroed_block (libc : Libc) (hc : calloc_contract libc)
    (nobj size : Nat) (calling_proc : String) (w : World) :
    (∀ (x : Ptr) (w' : World), calloc_safe libc nobj size calling_proc w = Result.ok x w' →
      x ≠ NULL ∧ w'.heap.block x = some (List.replicate (nobj * size) 0)) ∧
    ((libc.calloc w.heap nobj size).1 ≠ NULL →
      (∃ (x : Ptr) (w' : World), calloc_safe libc nobj size calling_proc w = Result.ok x w') ∧
      fatal_calls (emitted w (calloc_safe libc nobj size calling_proc w)) = []) := by
  constructor
  · intro x w' hr
    rw [calloc_safe_run] at hr
    by_cases hx : (libc.calloc w.heap nobj size).1 = NULL
    · simp [hx] at hr
    · simp only [hx, if_false, Result.ok.injEq] at hr
      obtain ⟨h1, h2⟩ := hr
      subst h1
      subst h2
      exact ⟨hx, hc w.heap nobj size hx⟩
  · intro hx
    constructor
    · rw [calloc_safe_run]
      simp [hx]
    · rw [calloc_safe_emitted]
      by_cases hd : w.db_level > 3 <;> by_cases hm : w.memory_trace = 0 <;>
        simp [hx, doing_events, after_events, fatal_calls, hd, hm]

/-- The scenario `calloc_safe(10, 4, "parseBuffer")` against the arena
allocator, which meets the contract: the call returns address 4096, the block
there is 40 zero bytes, and `fatal_error` is not called. -/
theorem calloc_safe_parseBuffer_zeroed :
    calloc_contract arena_libc ∧
    (calloc_safe arena_libc 10 4 "parseBuffer" (start 0 0 "")).returned = some 4096 ∧
    (4096 : Ptr) ≠ NULL ∧
    (calloc_safe arena_libc 10 4 "parseBuffer" (start 0 0 "")).world.heap.block 4096
      = some (List.replicate 40 0) ∧
    fatal_calls (emitted (start 0 0 "")
      (calloc_safe arena_libc 10 4 "parseBuffer" (start 0 0 ""))) = [] :=
  ⟨arena_calloc_contract 65536 hex_p, by decide,
   ((calloc_safe_returns_zeroed_block arena_libc (arena_calloc_contract 65536 hex_p) 10 4
      "parseBuffer" (start 0 0 "")).1 4096
      (calloc_safe arena_libc 10 4 "parseBuffer" (start 0 0 "")).world (by decide)).1,
   ((calloc_safe_returns_zeroed_block arena_libc (arena_calloc_contract 65536 hex_p) 10 4
      "parseBuffer" (start 0 0 "")).1 4096
      (calloc_safe arena_libc 10 4 "parseBuffer" (start 0 0 "")).world (by decide)).2,
   ((calloc_safe_returns_zeroed_block arena_libc (arena_calloc_contract 65536 hex_p) 10 4
      "parseBuffer" (start 0 0 "")).2 (by decide)).2⟩

/-! ## Zero-size requests -/

/-- C3, as stated, fails: for the zero-size request `calloc_safe(0, 4,
"emptyTable")` against an allocator whose zero-size convention is the null
pointer, nothing is returned and `fatal_error("emptyTable","MEM ALLOC",-1)` is
called. -/
theorem calloc_safe_zero_size_null_is_fatal :
    ((0 : Nat) = 0 ∨ (4 : Nat) = 0) ∧
    (zero_null_libc.calloc (start 0 0 "").heap 0 4).1 = NULL ∧
    (calloc_safe zero_null_libc 0 4 "emptyTable" (start 0 0 "")).returned = none ∧
    fatal_calls (emitted (start 0 0 "")
      (calloc_safe zero_null_libc 0 4 "emptyTable" (start 0 0 "")))
      = [("emptyTable", "MEM ALLOC", -1)] := by
  decide

/-- C3, amended: for a request with `nobj = 0` or `size = 0`, when the
allocator gives a non-null pointer `calloc_safe` returns that pointer and does
not call `fatal_error`; when the allocator gives the null pointer the request
is handled as a failed allocation: nothing is returned and
`fatal_error(calling_proc,"MEM ALLOC",-1)` is called once. -/
theorem calloc_safe_zero_size (libc : Libc) (nobj size : Nat) (calling_proc : String)
    (w : World) (_hz : nobj = 0 ∨ size = 0) :
    ((libc.calloc w.heap nobj size).1 ≠ NULL →
      (calloc_safe libc nobj size calling_proc w).returned
        = some (libc.calloc w.heap nobj size).1 ∧
      fatal_calls (emitted w (calloc_safe libc nobj size calling_proc w)) = []) ∧
    ((libc.calloc w.heap nobj size).1 = NULL →
      (calloc_safe libc nobj size calling_proc w).returned = none ∧
      fatal_calls (emitted w (calloc_safe libc nobj size calling_proc w))
        = [(calling_proc, "MEM ALLOC", -1)]) := by
  rw [calloc_safe_emitted, calloc_safe_returned]
  constructor
  · intro hx
    by_cases hd : w.db_level > 3 <;> by_cases hm : w.memory_trace = 0 <;>
      simp [hx, doing_events, after_events, fatal_calls, hd, hm]
  · intro hx
    by_cases hd : w.db_level > 3 <;> simp [hx, doing_events, after_events, fatal_calls, hd]

/-- The zero-size request `calloc_safe(0, 4, "emptyTable")` against the arena
allocator, which answers it with a non-null address: the call returns that
address and `fatal_error` is not called. -/
theorem calloc_safe_zero_size_arena :
    ((0 : Nat) = 0 ∨ (4 : Nat) = 0) ∧
    (calloc_safe arena_libc 0 4 "emptyTable" (start 0 0 "")).returned = some 4096 ∧
    fatal_calls (emitted (start 0 0 "")
      (calloc_safe arena_libc 0 4 "emptyTable" (start 0 0 ""))) = [] :=
  ⟨Or.inl rfl,
   (calloc_safe_zero_size arena_libc 0 4 "emptyTable" (start 0 0 "") (Or.inl rfl)).1
     (by decide)⟩

/-! ## The two trace lines -/

/-- C4: when `db_level ≤ 3` (negative levels included) nothing is printed
before the call of `calloc` and no line with the text `pdb ++ "doing
calloc_safe"` is printed at all; when `db_level > 3` exactly one such line is
printed, and it is the one event that precedes the call of `calloc`.  Both
hold for every allocator result, so also when the allocation then fails. -/
theorem calloc_safe_doing_line (libc : Libc) (nobj size : Nat) (calling_proc : String)
    (w : World) :
    (w.db_level ≤ 3 →
      before_alloc (emitted w (calloc_safe libc nobj size calling_proc w)) = [] ∧
      (printed (emitted w (calloc_safe libc nobj size calling_proc w))).count
        (w.pdb ++ "doing calloc_safe" ++ "\n") = 0) ∧
    (w.db_level > 3 →
      before_alloc (emitted w (calloc_safe libc nobj size calling_proc w))
        = [Event.printf (w.pdb ++ "doing calloc_safe" ++ "\n")] ∧
      (printed (emitted w (calloc_safe libc nobj size calling_proc w))).count
        (w.pdb ++ "doing calloc_safe" ++ "\n") = 1) ∧
    emitted w (calloc_safe libc nobj size calling_proc w)
      = before_alloc (emitted w (calloc_safe libc nobj size calling_proc w))
        ++ Event.calloc nobj size ::
          after_alloc (emitted w (calloc_safe libc nobj size calling_proc w)) := by
  rw [calloc_safe_emitted, before_alloc_run, after_alloc_run]
  have hne := doing_text_ne_CALLOC_text w.pdb (libc.fmt_p (libc.calloc w.heap nobj size).1)
  refine ⟨?_, ?_, rfl⟩
  · intro hd
    have hd' : ¬ w.db_level > 3 := not_lt.mpr hd
    by_cases hx : (libc.calloc w.heap nobj size).1 = NULL <;>
      by_cases hm : w.memory_trace = 0 <;>
      simp [doing_events, after_events, printed, fmt_CALLOC, hd', hx, hm, List.count_cons,
        hne, Ne.symm hne]
  · intro hd
    by_cases hx : (libc.calloc w.heap nobj size).1 = NULL <;>
      by_cases hm : w.memory_trace = 0 <;>
      simp [doing_events, after_events, printed, fmt_CALLOC, fmt_doing_calloc_safe, hd, hx, hm,
        List.count_cons, hne, Ne.symm hne]

/-- At debug level 4, against exhausted memory, the "doing" line is printed
before the call of `calloc`, which is followed by the call of
`fatal_error`. -/
theorem calloc_safe_doing_line_then_failure :
    emitted (start 4 1 "*DB: ")
      (calloc_safe exhausted_libc 1 (2 ^ 40) "hugeAlloc" (start 4 1 "*DB: "))
      = [Event.printf "*DB: doing calloc_safe\n", Event.calloc 1 (2 ^ 40),
         Event.fatal_error "hugeAlloc" "MEM ALLOC" (-1)] ∧
    before_alloc (emitted (start 4 1 "*DB: ")
      (calloc_safe exhausted_libc 1 (2 ^ 40) "hugeAlloc" (start 4 1 "*DB: ")))
      = [Event.printf "*DB: doing calloc_safe\n"] :=
  ⟨by decide,
   ((calloc_safe_doing_line exhausted_libc 1 (2 ^ 40) "hugeAlloc" (start 4 1 "*DB: ")).2.1
     (by decide)).1⟩

/-- C5: no line of the form `pdb ++ " CALLOC " ++ a` is printed before the
call of `calloc`.  After it: when `memory_trace` is zero nothing is printed;
when `memory_trace` is non-zero and `calloc` gave a non-null pointer `x`,
exactly one line is printed, `pdb ++ " CALLOC " ++ fmt_p x`; when `calloc`
gave the null pointer nothing is printed, whatever `memory_trace` is. -/
theorem calloc_safe_CALLOC_line (libc : Libc) (nobj size : Nat) (calling_proc : String)
    (w : World) :
    (∀ a : String, w.pdb ++ " CALLOC " ++ a ++ "\n" ∉
      printed (before_alloc (emitted w (calloc_safe libc nobj size calling_proc w)))) ∧
    (w.memory_trace = 0 →
      printed (after_alloc (emitted w (calloc_safe libc nobj size calling_proc w))) = []) ∧
    (w.memory_trace ≠ 0 → (libc.calloc w.heap nobj size).1 ≠ NULL →
      printed (after_alloc (emitted w (calloc_safe libc nobj size calling_proc w)))
        = [w.pdb ++ " CALLOC " ++ libc.fmt_p (libc.calloc w.heap nobj size).1 ++ "\n"]) ∧
    ((libc.calloc w.heap nobj size).1 = NULL →
      printed (after_alloc (emitted w (calloc_safe libc nobj size calling_proc w))) = []) := by
  rw [calloc_safe_emitted, before_alloc_run, after_alloc_run]
  refine ⟨?_, ?_, ?_, ?_⟩
  · intro a
    have hne := doing_text_ne_CALLOC_text w.pdb a
    by_cases hd : w.db_level > 3 <;>
      simp [doing_events, printed, fmt_doing_calloc_safe, hd, Ne.symm hne]
  · intro hm
    by_cases hx : (libc.calloc w.heap nobj size).1 = NULL <;>
      simp [after_events, printed, hx, hm]
  · intro hm hx
    simp [after_events, printed, fmt_CALLOC, hx, hm]
  · intro hx
    simp [after_events, printed, hx]

/-- With `memory_trace = 1` and a successful allocation at address 4096 the
one line printed after the call of `calloc` is `*DB:  CALLOC 0x1000`. -/
theorem calloc_safe_CALLOC_line_arena :
    printed (after_alloc (emitted (start 0 1 "*DB: ")
      (calloc_safe arena_libc 10 4 "parseBuffer" (start 0 1 "*DB: "))))
      = ["*DB:  CALLOC 0x1000\n"] :=
  (calloc_safe_CALLOC_line arena_libc 10 4 "parseBuffer" (start 0 1 "*DB: ")).2.2.1
    (by decide) (by decide)

/-- C8: the lines one call prints are, in this order, the "doing" line if
`db_level > 3` and the CALLOC line if `calloc` gave a non-null pointer and
`memory_trace` is non-zero; so their number is the sum of the two indicators
and is at most two. -/
theorem calloc_safe_log_lines (libc : Libc) (nobj size : Nat) (calling_proc : String)
    (w : World) :
    printed (emitted w (calloc_safe libc nobj size calling_proc w))
      = (if w.db_level > 3 then [w.pdb ++ "doing calloc_safe" ++ "\n"] else [])
        ++ (if (libc.calloc w.heap nobj size).1 ≠ NULL ∧ w.memory_trace ≠ 0
            then [w.pdb ++ " CALLOC " ++ libc.fmt_p (libc.calloc w.heap nobj size).1 ++ "\n"]
            else []) ∧
    (printed (emitted w (calloc_safe libc nobj size calling_proc w))).length
      = (if w.db_level > 3 then 1 else 0)
        + (if (libc.calloc w.heap nobj size).1 ≠ NULL ∧ w.memory_trace ≠ 0 then 1 else 0) ∧
    (printed (emitted w (calloc_safe libc nobj size calling_proc w))).length ≤ 2 := by
  rw [calloc_safe_emitted]
  by_cases hx : (libc.calloc w.heap nobj size).1 = NULL <;>
    by_cases hd : w.db_level > 3 <;> by_cases hm : w.memory_trace = 0 <;>
    simp [doing_events, after_events, printed, fmt_CALLOC, fmt_doing_calloc_safe, hx, hd, hm]

/-- At debug level 4 with `memory_trace = 1` a successful call prints the two
lines, the "doing" line first. -/
theorem calloc_safe_log_lines_both :
    printed (emitted (start 4 1 "*DB: ")
      (calloc_safe arena_libc 10 4 "parseBuffer" (start 4 1 "*DB: ")))
      = ["*DB: doing calloc_safe\n", "*DB:  CALLOC 0x1000\n"] :=
  (calloc_safe_log_lines arena_libc 10 4 "parseBuffer" (start 4 1 "*DB: ")).1.trans (by decide)

/-! ## Logging and the diagnostic context -/

/-- C6: two runs of the same request in states that may differ in `db_level`,
`memory_trace`, `pdb` (and in the events already recorded), for which the
allocator gives the same result, have the same outcome: the same pointer is
returned, or `fatal_error` is called with the same arguments. -/
theorem calloc_safe_outcome_indep_of_diag (libc : Libc) (nobj size : Nat)
    (calling_proc : String) (w w' : World)
    (h : libc.calloc w.heap nobj size = libc.calloc w'.heap nobj size) :
    outcome w (calloc_safe libc nobj size calling_proc w)
      = outcome w' (calloc_safe libc nobj size calling_proc w') := by
  simp only [outcome, calloc_safe_emitted, calloc_safe_returned, calloc_safe_world, h]
  by_cases hx : (libc.calloc w'.heap nobj size).1 = NULL <;>
    by_cases hd : w.db_level > 3 <;> by_cases hd' : w'.db_level > 3 <;>
    by_cases hm : w.memory_trace = 0 <;> by_cases hm' : w'.memory_trace = 0 <;>
    simp [doing_events, after_events, fatal_calls, hx, hd, hd', hm, hm']

/-- A silent run (level 0, no memory trace) and a verbose one (level 9, memory
trace on) of `calloc_safe(10, 4, "parseBuffer")` have the same outcome. -/
theorem calloc_safe_outcome_quiet_vs_verbose :
    arena_libc.calloc (start 0 0 "").heap 10 4
      = arena_libc.calloc (start 9 1 "*DB: ").heap 10 4 ∧
    outcome (start 0 0 "") (calloc_safe arena_libc 10 4 "parseBuffer" (start 0 0 ""))
      = outcome (start 9 1 "*DB: ")
          (calloc_safe arena_libc 10 4 "parseBuffer" (start 9 1 "*DB: ")) :=
  ⟨rfl, calloc_safe_outcome_indep_of_diag arena_libc 10 4 "parseBuffer" (start 0 0 "")
    (start 9 1 "*DB: ") rfl⟩

/-- C7: in the state `calloc_safe` ends in, on return as well as when
`fatal_error` has been called, `db_level`, `memory_trace` and `pdb` have the
values they had before the call. -/
theorem calloc_safe_diag_ctx_unchanged (libc : Libc) (nobj size : Nat) (calling_proc : String)
    (w : World) :
    (calloc_safe libc nobj size calling_proc w).world.db_level = w.db_level ∧
    (calloc_safe libc nobj size calling_proc w).world.memory_trace = w.memory_trace ∧
    (calloc_safe libc nobj size calling_proc w).world.pdb = w.pdb := by
  rw [calloc_safe_world]
  exact ⟨rfl, rfl, rfl⟩

/-! ## The allocator call -/

/-- C9: for all `nobj` and `size`, with no bound on their product,
`calloc_safe` calls `calloc` exactly once, with `(nobj, size)` as given; and a
request `(nobj', size')` for which the allocator gives the same result has the
same outcome and prints the same lines. -/
theorem calloc_safe_passes_args_through (libc : Libc) (nobj size : Nat)
    (calling_proc : String) (w : World) :
    calloc_calls (emitted w (calloc_safe libc nobj size calling_proc w)) = [(nobj, size)] ∧
    ∀ nobj' size' : Nat,
      libc.calloc w.heap nobj' size' = libc.calloc w.heap nobj size →
        outcome w (calloc_safe libc nobj' size' calling_proc w)
          = outcome w (calloc_safe libc nobj size calling_proc w) ∧
        printed (emitted w (calloc_safe libc nobj' size' calling_proc w))
          = printed (emitted w (calloc_safe libc nobj size calling_proc w)) := by
  constructor
  · rw [calloc_safe_emitted]
    by_cases hx : (libc.calloc w.heap nobj size).1 = NULL <;>
      by_cases hd : w.db_level > 3 <;> by_cases hm : w.memory_trace = 0 <;>
      simp [doing_events, after_events, calloc_calls, hx, hd, hm]
  · intro nobj' size' h
    simp only [outcome, calloc_safe_emitted, calloc_safe_returned, calloc_safe_world, h]
    by_cases hx : (libc.calloc w.heap nobj size).1 = NULL <;>
      by_cases hd : w.db_level > 3 <;> by_cases hm : w.memory_trace = 0 <;>
      simp [doing_events, after_events, fatal_calls, printed, hx, hd, hm]

/-- A request whose byte count `2^63 * 4` exceeds `SIZE_MAX` reaches the
allocator as it is. -/
theorem calloc_safe_overflowing_request :
    SIZE_MAX < 2 ^ 63 * 4 ∧
    calloc_calls (emitted (start 0 0 "")
      (calloc_safe arena_libc (2 ^ 63) 4 "bigTable" (start 0 0 ""))) = [(2 ^ 63, 4)] :=
  ⟨by decide,
   (calloc_safe_passes_args_through arena_libc (2 ^ 63) 4 "bigTable" (start 0 0 "")).1⟩

/-- C10: a value `v` that `calloc_safe` returns is the pointer `calloc` gave,
and when `memory_trace` is non-zero the line printed after the allocation is
`pdb ++ " CALLOC " ++ fmt_p v`, the rendering of that same pointer. -/
theorem calloc_safe_returns_calloc_handle (libc : Libc) (nobj size : Nat)
    (calling_proc : String) (w : World) (v : Ptr)
    (hv : (calloc_safe libc nobj size calling_proc w).returned = some v) :
    v = (libc.calloc w.heap nobj size).1 ∧
    (w.memory_trace ≠ 0 →
      printed (after_alloc (emitted w (calloc_safe libc nobj size calling_proc w)))
        = [w.pdb ++ " CALLOC " ++ libc.fmt_p v ++ "\n"]) := by
  rw [calloc_safe_returned] at hv
  rw [calloc_safe_emitted, after_alloc_run]
  by_cases hx : (libc.calloc w.heap nobj size).1 = NULL
  · simp [hx] at hv
  · simp only [hx, if_false, Option.some.injEq] at hv
    subst hv
    refine ⟨rfl, ?_⟩
    intro hm
    simp [after_events, printed, fmt_CALLOC, hx, hm]

/-- With `memory_trace = 1`, `calloc_safe(10, 4, "parseBuffer")` returns the
address 4096 the arena allocator gave, and the CALLOC line shows it as
`0x1000`. -/
theorem calloc_safe_traced_handle :
    (calloc_safe arena_libc 10 4 "parseBuffer" (start 0 1 "*DB: ")).returned = some 4096 ∧
    (4096 : Ptr) = (arena_libc.calloc (start 0 1 "*DB: ").heap 10 4).1 ∧
    printed (after_alloc (emitted (start 0 1 "*DB: ")
      (calloc_safe arena_libc 10 4 "parseBuffer" (start 0 1 "*DB: "))))
      = ["*DB:  CALLOC 0x1000\n"] :=
  ⟨by decide,
   (calloc_safe_returns_calloc_handle arena_libc 10 4 "parseBuffer" (start 0 1 "*DB: ") 4096
     (by decide)).1,
   (calloc_safe_returns_calloc_handle arena_libc 10 4 "parseBuffer" (start 0 1 "*DB: ") 4096
     (by decide)).2 (by decide)⟩

end SCTK
